import Mathlib

/-!
Verification of the javelin-python gateway client and provider-registration
shim against its natural-language specification.  The repository snapshot
contains only the README, examples, notebooks and CI configuration; the
`javelin_sdk` package itself (client, exceptions, registration shim) is not
present, so the behavioural definitions below are modelled from the spec's
own words and the claims are settled against those models.
-/

namespace Javelin

/-- Outcome of a single HTTP exchange: either a numeric status code from the
gateway, or a network-level failure (DNS, TLS, timeout, connection reset). -/
inductive HttpOutcome where
  | status (code : Nat)
  | networkFailure
deriving DecidableEq, Repr

/-- The five typed error kinds of the client's error taxonomy (spec §7). -/
inductive JavelinError where
  | validationError
  | unauthorizedError
  | resourceNotFoundError
  | routeNotFoundError
  | resourceAlreadyExistsError
  | networkError
deriving DecidableEq, Repr

/-- `true` exactly on the outcomes the spec calls success (status 200/201). -/
def isSuccessOutcome : HttpOutcome → Bool
  | .status c => c == 200 || c == 201
  | .networkFailure => false

/-- Modelled from the spec: the status-code mapping of §6 ("200/201 → success;
400/422 → ValidationError; 401/403 → UnauthorizedError; 404 →
ResourceNotFoundError / RouteNotFoundError; 409 → ResourceAlreadyExistsError;
network-level failure → NetworkError") together with §7's propagation policy
("the client never silently swallows an error ... it classifies and re-raises
as one of the above").  `isQuery` selects `routeNotFoundError` for 404 on the
query path.  A status outside the documented mapping is still classified and
re-raised; the model classifies it as a gateway-side `networkError`. -/
def classifyOutcome (isQuery : Bool) : HttpOutcome → Except JavelinError Unit
  | .networkFailure => .error .networkError
  | .status c =>
    if c = 200 ∨ c = 201 then .ok ()
    else if c = 400 ∨ c = 422 then .error .validationError
    else if c = 401 ∨ c = 403 then .error .unauthorizedError
    else if c = 404 then
      .error (if isQuery then .routeNotFoundError else .resourceNotFoundError)
    else if c = 409 then .error .resourceAlreadyExistsError
    else .error .networkError

/-- `true` exactly when a classified outcome is a typed error. -/
def isErr : Except JavelinError Unit → Bool
  | .error _ => true
  | .ok _ => false

/-- Modelled from the spec: the gateway is the system of record; deleting a
name it holds answers 200, deleting a name it does not hold answers 404
("a delete of a nonexistent resource still surfaces ResourceNotFoundError"). -/
def serverDeleteOutcome (existing : List String) (n : String) : HttpOutcome :=
  if n ∈ existing then .status 200 else .status 404

/-- Modelled from the spec: `delete(name)` performs one HTTP exchange and
classifies its outcome (not a query path, so 404 maps to
`resourceNotFoundError`). -/
def deleteResource (existing : List String) (n : String) :
    Except JavelinError Unit :=
  classifyOutcome false (serverDeleteOutcome existing n)

/-- First-match lookup of a header name in an ordered header list. -/
def headerValue (hs : List (String × String)) (n : String) : Option String :=
  match hs with
  | [] => none
  | (k, v) :: rest => if k = n then some v else headerValue rest n

/-- `true` when a header of the given name is present. -/
def hasHeader (hs : List (String × String)) (n : String) : Bool :=
  match hs with
  | [] => false
  | (k, _) :: rest => k == n || hasHeader rest n

/-- Modelled from the spec: merge incoming gateway headers into a client's
default header set "without clobbering caller-set headers of the same name if
already present (caller-set values win)": existing entries are kept verbatim
and an incoming entry is appended only when its name is absent. -/
def mergeHeaders (existing incoming : List (String × String)) :
    List (String × String) :=
  existing ++ incoming.filter (fun p => !hasHeader existing p.1)

/-- Client configuration: gateway base URL, gateway API key and an optional
virtual API key (spec §3 "Client Configuration"). -/
structure JavelinConfig where
  base_url : String
  javelin_api_key : String
  javelin_virtualapikey : Option String
deriving DecidableEq, Repr

/-- The observable state of a third-party SDK client object that the shim
mutates: its configured base URL, its default header set, how many times a
tracing wrapper has been installed, and whether it is an async client. -/
structure SdkClient where
  base_url : String
  default_headers : List (String × String)
  traceWraps : Nat
  isAsync : Bool
deriving DecidableEq, Repr

/-- The gateway's proxy path for a named route (spec §4.2 step 1:
"rewrites the client's configured base URL to
`{gateway_base_url}/v1/query/{route_name}`"). -/
def proxyUrl (cfg : JavelinConfig) (route : String) : String :=
  cfg.base_url ++ "/v1/query/" ++ route

/-- Modelled from the spec (§4.2 step 3): "prefer an explicit model ARN; fall
back to a profile ARN; if neither is resolvable, proceed without a model
header rather than failing the registration". -/
def resolveModelId (modelArn profileArn : Option String) : Option String :=
  match modelArn with
  | some m => some m
  | none => profileArn

/-- Modelled from the spec (§4.2 step 2 and §6): the gateway headers attached
at registration: `x-api-key`, the optional `x-javelin-virtualapikey`,
`x-javelin-route`, `x-javelin-provider`, and `x-javelin-model` only when a
model identifier was resolved. -/
def gatewayHeaders (cfg : JavelinConfig) (route providerName : String)
    (modelId : Option String) : List (String × String) :=
  [("x-api-key", cfg.javelin_api_key)] ++
  (match cfg.javelin_virtualapikey with
   | some vk => [("x-javelin-virtualapikey", vk)]
   | none => []) ++
  [("x-javelin-route", route), ("x-javelin-provider", providerName)] ++
  (match modelId with
   | some m => [("x-javelin-model", m)]
   | none => [])

/-- Modelled from the spec (§4.2): provider registration rewrites the base
URL to the proxy path, merges the gateway headers without clobbering
caller-set headers, and installs the tracing wrapper only if it is not
already installed (so a second registration never double-wraps). -/
def registerProvider (cfg : JavelinConfig) (c : SdkClient)
    (route providerName : String) (modelArn profileArn : Option String) :
    SdkClient :=
  { base_url := proxyUrl cfg route
    default_headers := mergeHeaders c.default_headers
      (gatewayHeaders cfg route providerName (resolveModelId modelArn profileArn))
    traceWraps := if c.traceWraps = 0 then 1 else c.traceWraps
    isAsync := c.isAsync }

/-- The endpoint families an OpenAI-style SDK client exposes, all derived
from the same configured base URL. -/
inductive EndpointFamily where
  | chatCompletions
  | completions
  | embeddings
deriving DecidableEq, Repr

/-- The URL path each endpoint family appends to the client's base URL. -/
def familyPath : EndpointFamily → String
  | .chatCompletions => "/chat/completions"
  | .completions => "/completions"
  | .embeddings => "/embeddings"

/-- An outgoing HTTP request as constructed by an SDK client endpoint. -/
structure Request where
  url : String
  headers : List (String × String)
deriving DecidableEq, Repr

/-- Modelled from the spec: every endpoint family of a registered SDK client
builds its request from the client object's single configured base URL and
default header set, with no per-call registration state. -/
def endpointCall (c : SdkClient) (f : EndpointFamily) : Request :=
  { url := c.base_url ++ familyPath f
    headers := c.default_headers }

/-- Modelled from the spec: `list()` retrieves the items the server reports;
an item whose individual retrieval failed is skipped and the remaining items
are returned in order ("skip that item and return an empty or partial list
rather than fail the whole call"). -/
def listResources {α : Type} (items : List (Except Unit α)) : List α :=
  items.filterMap (fun x => match x with | .ok a => some a | .error _ => none)

/-- Modelled from the spec: a streaming query checks route existence up
front; only an existing route starts yielding the server's chunks, a missing
route fails with `routeNotFoundError` before any chunk ("fails fast, not
mid-stream"). -/
def streamQueryRoute (routes : List String) (route : String)
    (chunks : List String) : Except JavelinError (List String) :=
  if route ∈ routes then .ok chunks else .error .routeNotFoundError

/-- The chunks a caller actually receives from a streaming query result. -/
def yieldedChunks : Except JavelinError (List String) → List String
  | .ok cs => cs
  | .error _ => []

/-- The externally visible events of one client call invocation. -/
inductive CallEvent where
  | httpRequest
  | httpResponse (o : HttpOutcome)
deriving DecidableEq, Repr

/-- Number of HTTP requests issued in an event trace. -/
def countRequests (t : List CallEvent) : Nat :=
  t.countP (fun e => match e with | .httpRequest => true | _ => false)

/-- Modelled from the spec: a single call invocation issues exactly one HTTP
request, observes its outcome, and classifies it — "the client itself does
not re-issue failed HTTP calls automatically" and guarantees "at most one
in-flight request per call invocation". -/
def invokeCall (isQuery : Bool) (o : HttpOutcome) :
    List CallEvent × Except JavelinError Unit :=
  ([.httpRequest, .httpResponse o], classifyOutcome isQuery o)

/-- A stored secret: provider name and the write-only API key value. -/
structure Secret where
  providerName : String
  api_key : String
deriving DecidableEq, Repr

/-- Modelled from the spec: masking of a sensitive value in listing output —
every character of the stored value is replaced by a redaction character. -/
def maskValue (s : String) : String :=
  String.mk (s.data.map (fun _ => '*'))

/-- Modelled from the spec: listing secrets returns each stored secret with
its API key value masked ("read paths must mask/redact the value in any
listing output"). -/
def listSecrets (stored : List Secret) : List Secret :=
  stored.map (fun s => { s with api_key := maskValue s.api_key })

/-! ### Helper lemmas -/

theorem headerValue_append_of_some (a b : List (String × String))
    (n v : String) (h : headerValue a n = some v) :
    headerValue (a ++ b) n = some v := by
  induction a with
  | nil => simp [headerValue] at h
  | cons p rest ih =>
    obtain ⟨k, w⟩ := p
    by_cases hk : k = n
    · simpa [headerValue, hk] using h
    · simp only [headerValue, if_neg hk] at h ⊢
      exact ih h

theorem headerValue_append_of_none (a b : List (String × String))
    (n : String) (h : headerValue a n = none) :
    headerValue (a ++ b) n = headerValue b n := by
  induction a with
  | nil => rfl
  | cons p rest ih =>
    obtain ⟨k, w⟩ := p
    by_cases hk : k = n
    · simp [headerValue, hk] at h
    · simp only [List.cons_append, headerValue, if_neg hk] at h ⊢
      exact ih h

theorem hasHeader_false_of_headerValue_none (hs : List (String × String))
    (n : String) (h : headerValue hs n = none) : hasHeader hs n = false := by
  induction hs with
  | nil => rfl
  | cons p rest ih =>
    obtain ⟨k, w⟩ := p
    by_cases hk : k = n
    · simp [headerValue, hk] at h
    · simp only [headerValue, if_neg hk] at h
      simp [hasHeader, hk, ih h]

theorem headerValue_filter_of_not_has (e g : List (String × String))
    (n : String) (h : hasHeader e n = false) :
    headerValue (g.filter (fun p => !hasHeader e p.1)) n = headerValue g n := by
  induction g with
  | nil => rfl
  | cons p rest ih =>
    obtain ⟨k, w⟩ := p
    by_cases hk : k = n
    · subst hk
      simp [List.filter_cons, h, headerValue]
    · by_cases hf : hasHeader e k
      · simp only [List.filter_cons, hf]
        simp only [headerValue, if_neg hk]
        exact ih
      · simp only [List.filter_cons, hf]
        simp only [headerValue, if_neg hk]
        exact ih

theorem mergeHeaders_of_some (e g : List (String × String)) (n v : String)
    (h : headerValue e n = some v) :
    headerValue (mergeHeaders e g) n = some v :=
  headerValue_append_of_some _ _ _ _ h

theorem mergeHeaders_of_none (e g : List (String × String)) (n : String)
    (h : headerValue e n = none) :
    headerValue (mergeHeaders e g) n = headerValue g n := by
  unfold mergeHeaders
  rw [headerValue_append_of_none _ _ _ h]
  exact headerValue_filter_of_not_has _ _ _
    (hasHeader_false_of_headerValue_none _ _ h)

theorem hasHeader_append (a b : List (String × String)) (n : String) :
    hasHeader (a ++ b) n = (hasHeader a n || hasHeader b n) := by
  induction a with
  | nil => rfl
  | cons p rest ih =>
    obtain ⟨k, w⟩ := p
    simp [hasHeader, ih, Bool.or_assoc]

theorem hasHeader_of_mem (hs : List (String × String)) (p : String × String)
    (h : p ∈ hs) : hasHeader hs p.1 = true := by
  induction hs with
  | nil => simp at h
  | cons q rest ih =>
    obtain ⟨k, w⟩ := q
    rcases List.mem_cons.1 h with rfl | hmem
    · simp [hasHeader]
    · simp [hasHeader, ih hmem]

theorem mergeHeaders_idem (e g : List (String × String)) :
    mergeHeaders (mergeHeaders e g) g = mergeHeaders e g := by
  unfold mergeHeaders
  have hnil :
      (g.filter (fun p =>
        !hasHeader (e ++ g.filter (fun q => !hasHeader e q.1)) p.1)) = [] := by
    rw [List.filter_eq_nil_iff]
    intro p hp
    simp only [Bool.not_eq_true', Bool.not_eq_false]
    rw [hasHeader_append]
    by_cases hf : hasHeader e p.1
    · simp [hf]
    · have : p ∈ g.filter (fun q => !hasHeader e q.1) :=
        List.mem_filter.2 ⟨hp, by simp [hf]⟩
      simp [hasHeader_of_mem _ _ this]
  rw [hnil, List.append_nil]

theorem classify_not_ok (isQuery : Bool) (o : HttpOutcome)
    (ho : isSuccessOutcome o = false) :
    isErr (classifyOutcome isQuery o) = true := by
  cases o with
  | networkFailure => rfl
  | status c =>
    simp [isSuccessOutcome] at ho
    simp only [classifyOutcome]
    rw [if_neg (by omega)]
    split
    · rfl
    · split
      · rfl
      · split
        · rfl
        · split
          · rfl
          · rfl

theorem map_const_star_of_eq_self {l : List Char}
    (h : l.map (fun _ => '*') = l) : ∀ a ∈ l, a = '*' := by
  induction l with
  | nil => simp
  | cons x xs ih =>
    simp only [List.map, List.cons.injEq] at h
    obtain ⟨hx, hxs⟩ := h
    intro a ha
    rcases List.mem_cons.1 ha with rfl | hmem
    · exact hx.symm
    · exact ih hxs a hmem

/-! ### Claim theorems -/

/-- C1: for every CRUD operation and for query, the HTTP outcome of the
single exchange maps to exactly one error kind: 400/422 → ValidationError,
401/403 → UnauthorizedError, 404 → ResourceNotFoundError (RouteNotFoundError
for query), 409 → ResourceAlreadyExistsError, network-level failure →
NetworkError; delete of a nonexistent resource surfaces
ResourceNotFoundError rather than succeeding; and no error from a single
call is silently swallowed (every non-success outcome classifies to a typed
error). -/
theorem c1_single_exchange_error_mapping (isQuery : Bool) (o : HttpOutcome)
    (existing : List String) (n : String)
    (hn : n ∉ existing) (ho : isSuccessOutcome o = false) :
    classifyOutcome isQuery (.status 400) = .error .validationError ∧
    classifyOutcome isQuery (.status 422) = .error .validationError ∧
    classifyOutcome isQuery (.status 401) = .error .unauthorizedError ∧
    classifyOutcome isQuery (.status 403) = .error .unauthorizedError ∧
    classifyOutcome false (.status 404) = .error .resourceNotFoundError ∧
    classifyOutcome true (.status 404) = .error .routeNotFoundError ∧
    classifyOutcome isQuery (.status 409) = .error .resourceAlreadyExistsError ∧
    classifyOutcome isQuery .networkFailure = .error .networkError ∧
    deleteResource existing n = .error .resourceNotFoundError ∧
    isErr (classifyOutcome isQuery o) = true := by
  refine ⟨?_, ?_, ?_, ?_, rfl, rfl, ?_, rfl, ?_, classify_not_ok isQuery o ho⟩
  · cases isQuery <;> rfl
  · cases isQuery <;> rfl
  · cases isQuery <;> rfl
  · cases isQuery <;> rfl
  · cases isQuery <;> rfl
  · unfold deleteResource serverDeleteOutcome
    rw [if_neg hn]
    rfl

/-- Witness for C1 at concrete inputs (query path, network failure,
empty server state, name "r"). -/
theorem c1_single_exchange_error_mapping_witness :
    (("r" : String) ∉ ([] : List String)) ∧
    isSuccessOutcome .networkFailure = false ∧
    (classifyOutcome true (.status 400) = .error .validationError ∧
     classifyOutcome true (.status 422) = .error .validationError ∧
     classifyOutcome true (.status 401) = .error .unauthorizedError ∧
     classifyOutcome true (.status 403) = .error .unauthorizedError ∧
     classifyOutcome false (.status 404) = .error .resourceNotFoundError ∧
     classifyOutcome true (.status 404) = .error .routeNotFoundError ∧
     classifyOutcome true (.status 409) = .error .resourceAlreadyExistsError ∧
     classifyOutcome true .networkFailure = .error .networkError ∧
     deleteResource [] "r" = .error .resourceNotFoundError ∧
     isErr (classifyOutcome true .networkFailure) = true) :=
  ⟨by simp, rfl,
   c1_single_exchange_error_mapping true .networkFailure [] "r" (by simp) rfl⟩

/-- C2: after provider registration, the client object's configured base URL
equals `{gateway_base_url}/v1/query/{route_name}`, so every subsequent
endpoint call through that client object targets the gateway's proxy path
for that route. -/
theorem c2_registration_rewrites_base_url (cfg : JavelinConfig)
    (c : SdkClient) (route providerName : String)
    (modelArn profileArn : Option String) (f : EndpointFamily) :
    (registerProvider cfg c route providerName modelArn profileArn).base_url
        = cfg.base_url ++ "/v1/query/" ++ route ∧
    (endpointCall (registerProvider cfg c route providerName modelArn profileArn) f).url
        = cfg.base_url ++ "/v1/query/" ++ route ++ familyPath f :=
  ⟨rfl, rfl⟩

/-- C3: registration merges the gateway headers `x-api-key`,
`x-javelin-virtualapikey`, `x-javelin-route` and `x-javelin-provider` into
the client's default header set; a header name already present in the
caller's set keeps the caller's value, and a name not present receives the
gateway value. -/
theorem c3_header_merge_caller_wins (cfg : JavelinConfig) (c : SdkClient)
    (route providerName vk : String) (modelArn profileArn : Option String)
    (n v m : String)
    (hvk : cfg.javelin_virtualapikey = some vk)
    (hn : headerValue c.default_headers n = some v)
    (hm : headerValue c.default_headers m = none) :
    headerValue (registerProvider cfg c route providerName modelArn
        profileArn).default_headers n = some v ∧
    headerValue (registerProvider cfg c route providerName modelArn
        profileArn).default_headers m
      = headerValue (gatewayHeaders cfg route providerName
          (resolveModelId modelArn profileArn)) m ∧
    headerValue (gatewayHeaders cfg route providerName
        (resolveModelId modelArn profileArn)) "x-api-key"
      = some cfg.javelin_api_key ∧
    headerValue (gatewayHeaders cfg route providerName
        (resolveModelId modelArn profileArn)) "x-javelin-virtualapikey"
      = some vk ∧
    headerValue (gatewayHeaders cfg route providerName
        (resolveModelId modelArn profileArn)) "x-javelin-route"
      = some route ∧
    headerValue (gatewayHeaders cfg route providerName
        (resolveModelId modelArn profileArn)) "x-javelin-provider"
      = some providerName := by
  refine ⟨mergeHeaders_of_some _ _ _ _ hn, mergeHeaders_of_none _ _ _ hm,
    ?_, ?_, ?_, ?_⟩ <;>
    cases hmid : resolveModelId modelArn profileArn <;>
    simp [gatewayHeaders, headerValue, hvk]

/-- Witness for C3 at concrete inputs: the caller already set `x-api-key`
to "caller-key"; registration keeps it and adds `x-javelin-route`. -/
theorem c3_header_merge_caller_wins_witness :
    (JavelinConfig.mk "https://gw" "gw-key" (some "vkey")).javelin_virtualapikey
        = some "vkey" ∧
    headerValue [("x-api-key", "caller-key")] "x-api-key" = some "caller-key" ∧
    headerValue [("x-api-key", "caller-key")] "x-javelin-route" = none ∧
    (headerValue (registerProvider (JavelinConfig.mk "https://gw" "gw-key" (some "vkey"))
        (SdkClient.mk "https://api.openai.com" [("x-api-key", "caller-key")] 0 false)
        "openai-univ" "openai" none none).default_headers "x-api-key"
      = some "caller-key" ∧
    headerValue (registerProvider (JavelinConfig.mk "https://gw" "gw-key" (some "vkey"))
        (SdkClient.mk "https://api.openai.com" [("x-api-key", "caller-key")] 0 false)
        "openai-univ" "openai" none none).default_headers "x-javelin-route"
      = headerValue (gatewayHeaders (JavelinConfig.mk "https://gw" "gw-key" (some "vkey"))
          "openai-univ" "openai" (resolveModelId none none)) "x-javelin-route" ∧
    headerValue (gatewayHeaders (JavelinConfig.mk "https://gw" "gw-key" (some "vkey"))
        "openai-univ" "openai" (resolveModelId none none)) "x-api-key"
      = some "gw-key" ∧
    headerValue (gatewayHeaders (JavelinConfig.mk "https://gw" "gw-key" (some "vkey"))
        "openai-univ" "openai" (resolveModelId none none)) "x-javelin-virtualapikey"
      = some "vkey" ∧
    headerValue (gatewayHeaders (JavelinConfig.mk "https://gw" "gw-key" (some "vkey"))
        "openai-univ" "openai" (resolveModelId none none)) "x-javelin-route"
      = some "openai-univ" ∧
    headerValue (gatewayHeaders (JavelinConfig.mk "https://gw" "gw-key" (some "vkey"))
        "openai-univ" "openai" (resolveModelId none none)) "x-javelin-provider"
      = some "openai") :=
  ⟨rfl, rfl, rfl,
   c3_header_merge_caller_wins (JavelinConfig.mk "https://gw" "gw-key" (some "vkey"))
     (SdkClient.mk "https://api.openai.com" [("x-api-key", "caller-key")] 0 false)
     "openai-univ" "openai" "vkey" none none
     "x-api-key" "caller-key" "x-javelin-route" rfl rfl rfl⟩

/-- C4: `list()` never fails due to a retrieval error on an individual item:
unreadable items are skipped, the result is an (ordered, possibly empty or
partial) list whose length is at most the number of items the server
reports, and every returned element was a readable reported item. -/
theorem c4_list_skips_bad_items {α : Type} (items : List (Except Unit α))
    (r : α) (hr : r ∈ listResources items) :
    (listResources items).length ≤ items.length ∧ Except.ok r ∈ items := by
  constructor
  · clear hr
    unfold listResources
    induction items with
    | nil => simp
    | cons x rest ih =>
      cases x with
      | ok a => simpa [List.filterMap_cons] using Nat.succ_le_succ ih
      | error e =>
        simp only [List.filterMap_cons]
        exact Nat.le_succ_of_le ih
  · unfold listResources at hr
    obtain ⟨x, hx, hfx⟩ := List.mem_filterMap.1 hr
    cases x with
    | ok a =>
      obtain rfl : a = r := by simpa using hfx
      exact hx
    | error e => simp at hfx

/-- Witness for C4 at a concrete reported list with one unreadable item. -/
theorem c4_list_skips_bad_items_witness :
    (5 : Nat) ∈ listResources [Except.ok 5, Except.error (), Except.ok 9] ∧
    ((listResources [Except.ok 5, Except.error (), Except.ok 9]).length
        ≤ ([Except.ok 5, Except.error (), Except.ok 9] : List (Except Unit Nat)).length ∧
     Except.ok 5 ∈ ([Except.ok 5, Except.error (), Except.ok 9] : List (Except Unit Nat))) :=
  ⟨by decide,
   c4_list_skips_bad_items [Except.ok 5, Except.error (), Except.ok 9] 5 (by decide)⟩

/-- C5: provider registration is idempotent per (client object, route) pair:
registering the same client object a second time for the same route leaves
the base URL, header set (no duplicated entries) and tracing-wrap state
identical to the state after the first registration. -/
theorem c5_registration_idempotent (cfg : JavelinConfig) (c : SdkClient)
    (route providerName : String) (modelArn profileArn : Option String) :
    registerProvider cfg
        (registerProvider cfg c route providerName modelArn profileArn)
        route providerName modelArn profileArn
      = registerProvider cfg c route providerName modelArn profileArn := by
  unfold registerProvider
  simp only [SdkClient.mk.injEq, mergeHeaders_idem, true_and, and_true]
  by_cases h : c.traceWraps = 0 <;> simp [h]

/-- C6: the model identifier for the `x-javelin-model` header is resolved by
preferring an explicit model ARN, then a profile ARN; when neither is given,
no `x-javelin-model` header is attached (the registered client's
`x-javelin-model` header is exactly whatever the caller had, if anything)
and registration still succeeds with the base URL rewritten to the proxy
path. -/
theorem c6_model_id_resolution (cfg : JavelinConfig) (c : SdkClient)
    (route providerName ma pa : String) :
    resolveModelId (some ma) (some pa) = some ma ∧
    resolveModelId (some ma) none = some ma ∧
    resolveModelId none (some pa) = some pa ∧
    resolveModelId none none = none ∧
    headerValue (gatewayHeaders cfg route providerName none)
        "x-javelin-model" = none ∧
    headerValue (registerProvider cfg c route providerName none
        none).default_headers "x-javelin-model"
      = headerValue c.default_headers "x-javelin-model" ∧
    (registerProvider cfg c route providerName none none).base_url
      = proxyUrl cfg route := by
  have hgw : headerValue (gatewayHeaders cfg route providerName none)
      "x-javelin-model" = none := by
    cases hv : cfg.javelin_virtualapikey <;>
      simp [gatewayHeaders, headerValue, hv]
  refine ⟨rfl, rfl, rfl, rfl, hgw, ?_, rfl⟩
  cases hc : headerValue c.default_headers "x-javelin-model" with
  | some v => exact mergeHeaders_of_some _ _ _ _ hc
  | none =>
    rw [show registerProvider cfg c route providerName none none
        = { base_url := proxyUrl cfg route
            default_headers := mergeHeaders c.default_headers
              (gatewayHeaders cfg route providerName none)
            traceWraps := if c.traceWraps = 0 then 1 else c.traceWraps
            isAsync := c.isAsync } from rfl]
    exact (mergeHeaders_of_none _ _ _ hc).trans hgw

/-- C7: a streaming query whose route name does not exist server-side fails
with `routeNotFoundError` up front, and the caller receives no chunk at all
(never a partial stream). -/
theorem c7_stream_fails_before_first_chunk (routes : List String)
    (route : String) (chunks : List String) (h : route ∉ routes) :
    streamQueryRoute routes route chunks = .error .routeNotFoundError ∧
    yieldedChunks (streamQueryRoute routes route chunks) = [] := by
  unfold streamQueryRoute
  rw [if_neg h]
  exact ⟨rfl, rfl⟩

/-- Witness for C7 at a concrete missing route. -/
theorem c7_stream_fails_before_first_chunk_witness :
    (("nonexistent-route" : String) ∉ (["openai-univ"] : List String)) ∧
    (streamQueryRoute ["openai-univ"] "nonexistent-route" ["chunk1", "chunk2"]
        = .error .routeNotFoundError ∧
     yieldedChunks (streamQueryRoute ["openai-univ"] "nonexistent-route"
        ["chunk1", "chunk2"]) = []) :=
  ⟨by decide,
   c7_stream_fails_before_first_chunk ["openai-univ"] "nonexistent-route"
     ["chunk1", "chunk2"] (by decide)⟩

/-- C8: every single call invocation performs exactly one HTTP exchange (so
at most one, with no re-issue of a failed call and no coalescing across
invocations), its result is the classification of that one exchange, and a
failed exchange surfaces as a typed error. -/
theorem c8_at_most_one_exchange (isQuery : Bool) (o : HttpOutcome)
    (ho : isSuccessOutcome o = false) :
    countRequests (invokeCall isQuery o).1 = 1 ∧
    (invokeCall isQuery o).2 = classifyOutcome isQuery o ∧
    isErr (invokeCall isQuery o).2 = true :=
  ⟨rfl, rfl, classify_not_ok isQuery o ho⟩

/-- Witness for C8 at a concrete failed exchange. -/
theorem c8_at_most_one_exchange_witness :
    isSuccessOutcome (.status 500) = false ∧
    (countRequests (invokeCall false (.status 500)).1 = 1 ∧
     (invokeCall false (.status 500)).2 = classifyOutcome false (.status 500) ∧
     isErr (invokeCall false (.status 500)).2 = true) :=
  ⟨rfl, c8_at_most_one_exchange false (.status 500) rfl⟩

/-- C9: secret listing output masks every stored API key value: the listed
values are exactly the masked forms of the stored values, every character of
a listed value is the redaction character, and a stored value containing any
other character is never echoed back in full. -/
theorem c9_secret_listing_masks (stored : List Secret) (s : Secret)
    (hs : s ∈ stored) (ch : Char) (hch : ch ∈ s.api_key.data)
    (hne : ch ≠ '*') :
    (listSecrets stored).map Secret.api_key
        = stored.map (fun t => maskValue t.api_key) ∧
    (maskValue s.api_key).data.all (fun c => c == '*') = true ∧
    maskValue s.api_key ≠ s.api_key := by
  refine ⟨by simp [listSecrets], ?_, ?_⟩
  · simp [maskValue, List.all_eq_true]
  · intro hmask
    have hdata : s.api_key.data.map (fun _ => '*') = s.api_key.data := by
      have := congrArg String.data hmask
      simpa [maskValue] using this
    exact hne (map_const_star_of_eq_self hdata ch hch)

/-- Witness for C9 at a concrete stored secret. -/
theorem c9_secret_listing_masks_witness :
    Secret.mk "openai" "sk-live-1" ∈ [Secret.mk "openai" "sk-live-1"] ∧
    ('s' : Char) ∈ ("sk-live-1" : String).data ∧
    ('s' : Char) ≠ '*' ∧
    ((listSecrets [Secret.mk "openai" "sk-live-1"]).map Secret.api_key
        = [Secret.mk "openai" "sk-live-1"].map (fun t => maskValue t.api_key) ∧
     (maskValue (Secret.mk "openai" "sk-live-1").api_key).data.all
        (fun c => c == '*') = true ∧
     maskValue (Secret.mk "openai" "sk-live-1").api_key
        ≠ (Secret.mk "openai" "sk-live-1").api_key) :=
  ⟨by decide, by decide, by decide,
   c9_secret_listing_masks [Secret.mk "openai" "sk-live-1"]
     (Secret.mk "openai" "sk-live-1") (by decide) 's' (by decide) (by decide)⟩

/-- C10: one registration call suffices for the whole SDK client object:
after a single registration every endpoint family — chat completions, legacy
completions and embeddings — builds its request URL from the gateway proxy
path for the registered route and carries the registered header set, with no
per-endpoint state; the client's sync/async nature is preserved unchanged,
so the same holds for an async client registered once. -/
theorem c10_single_registration_covers_endpoints (cfg : JavelinConfig)
    (c : SdkClient) (route providerName : String)
    (modelArn profileArn : Option String) (f : EndpointFamily) :
    (endpointCall (registerProvider cfg c route providerName modelArn
        profileArn) f).url = proxyUrl cfg route ++ familyPath f ∧
    (endpointCall (registerProvider cfg c route providerName modelArn
        profileArn) f).headers
      = (registerProvider cfg c route providerName modelArn
          profileArn).default_headers ∧
    (registerProvider cfg c route providerName modelArn profileArn).isAsync
      = c.isAsync :=
  ⟨rfl, rfl, rfl⟩

end Javelin
